import Mathlib

/-!
Verification of the BullSpace reservation core.

The definitions below are a shallow embedding of the repository code:

* src/backend/booking-service/server.js (and its server.ts twin) — the
  Reservation Processor (processBooking);
* src/backend/notification-service/server.ts (and its JavaScript twin) —
  the Fan-out Broadcaster;
* src/frontend/src/services/socket/SocketService.ts — the client socket
  wrapper.

The Resource Hold Store (RoomCache, in shared/utils/redis) and the Change
Publisher (in shared/utils) are referenced by the services but their code
is not among the sources under verification; their behaviour is modelled
from the design specification, as marked on each such definition.
-/

/-- Reservation status, from the Booking model: one of PENDING, CONFIRMED,
CANCELLED, EXPIRED. -/
inductive BookingStatus where
  | PENDING
  | CONFIRMED
  | CANCELLED
  | EXPIRED
deriving DecidableEq

/-- Queue message consumed by processBooking: bookingId, userId, roomId,
timeSlot (shared/types BookingQueueMessage). -/
structure BookingQueueMessage where
  bookingId : String
  userId : String
  roomId : String
  timeSlot : String
deriving DecidableEq

/-- A hold key is the pair of roomId and normalized time slot. -/
abbrev HoldKey := String × String

/-- State of the Resource Hold Store: the list of live holds, each mapping
a key to the owning userId; reachable states carry at most one entry per
key. -/
abbrev HoldStore := List (HoldKey × String)

/-- Owner of the live hold on a key, if any. -/
def holdOwner (s : HoldStore) (k : HoldKey) : Option String :=
  match s with
  | [] => none
  | p :: rest => if p.1 = k then some p.2 else holdOwner rest k

/-- Existence probe on the hold store. -/
def holdExists (s : HoldStore) (k : HoldKey) : Bool :=
  (holdOwner s k).isSome

/-- Modelled from the spec: the Resource Hold Store lives in
shared/utils/redis, outside the verified sources.  tryAcquire is its
atomic create-if-absent primitive (Redis SETNX with expiry): it creates
the key with the given owner iff no hold exists, returning true exactly on
creation.  Expiry is store-clock driven and not part of this state. -/
def tryAcquire (s : HoldStore) (k : HoldKey) (owner : String) : Bool × HoldStore :=
  if holdExists s k then (false, s) else (true, (k, owner) :: s)

/-- Modelled from the spec: RoomCache.isAvailable is the non-atomic
existence probe used only as a fast-path availability hint. -/
def RoomCache.isAvailable (s : HoldStore) (roomId timeSlot : String) : Bool :=
  ! holdExists s (roomId, timeSlot)

/-- Modelled from the spec: RoomCache.holdRoom is tryAcquire on the
roomId+timeSlot key with the requesting user as owner. -/
def RoomCache.holdRoom (s : HoldStore) (roomId timeSlot userId : String)
    (_ttl : Int) : Bool × HoldStore :=
  tryAcquire s (roomId, timeSlot) userId

/-- Reservation Record Store state: reservation id mapped to its status
(the status field is the only record field the core mutates). -/
abbrev BookingDB := List (String × BookingStatus)

/-- Status of the record with the given reservation id, if present. -/
def dbStatus (db : BookingDB) (id : String) : Option BookingStatus :=
  match db with
  | [] => none
  | p :: rest => if p.1 = id then some p.2 else dbStatus rest id

/-- Embedding of Booking.findByIdAndUpdate with a status payload: sets the
status of the record with the given id; a missing id is a silent no-op
(Mongoose resolves with null, raising no error). -/
def Booking.findByIdAndUpdate (db : BookingDB) (id : String)
    (st : BookingStatus) : BookingDB :=
  db.map (fun p => if p.1 = id then (p.1, st) else p)

/-- Reading the written id after findByIdAndUpdate yields the new status
when the id was present, none otherwise. -/
theorem dbStatus_findByIdAndUpdate_self (db : BookingDB) (id : String)
    (st : BookingStatus) :
    dbStatus (Booking.findByIdAndUpdate db id st) id =
      (dbStatus db id).map (fun _ => st) := by
  induction db with
  | nil => rfl
  | cons p rest ih =>
    obtain ⟨a, b⟩ := p
    by_cases h : a = id
    · subst h
      simp [Booking.findByIdAndUpdate, dbStatus]
    · simp only [Booking.findByIdAndUpdate, List.map] at ih ⊢
      simp only [if_neg h, dbStatus]
      exact ih

/-- findByIdAndUpdate leaves every other id unchanged. -/
theorem dbStatus_findByIdAndUpdate_other (db : BookingDB) (id id2 : String)
    (st : BookingStatus) (h : id2 ≠ id) :
    dbStatus (Booking.findByIdAndUpdate db id st) id2 = dbStatus db id2 := by
  induction db with
  | nil => rfl
  | cons p rest ih =>
    obtain ⟨a, b⟩ := p
    by_cases hp : a = id
    · subst hp
      have hb : ¬ (a = id2) := fun he => h (he.symm)
      simp only [Booking.findByIdAndUpdate, List.map, dbStatus] at ih ⊢
      simp [hb]
      exact ih
    · simp only [Booking.findByIdAndUpdate, List.map, if_neg hp, dbStatus] at ih ⊢
      by_cases hb : a = id2
      · rw [if_pos hb, if_pos hb]
      · rw [if_neg hb, if_neg hb]
        exact ih

/-- findByIdAndUpdate on an absent id changes nothing at all. -/
theorem findByIdAndUpdate_absent (db : BookingDB) (id : String)
    (st : BookingStatus) (h : dbStatus db id = none) :
    Booking.findByIdAndUpdate db id st = db := by
  induction db with
  | nil => rfl
  | cons p rest ih =>
    obtain ⟨a, b⟩ := p
    simp only [dbStatus] at h
    by_cases hb : a = id
    · rw [if_pos hb] at h
      exact absurd h (by simp)
    · rw [if_neg hb] at h
      simp only [Booking.findByIdAndUpdate, List.map, if_neg hb]
      have := ih h
      simp only [Booking.findByIdAndUpdate] at this
      rw [this]

/-- Writing the same status twice is the same as writing it once. -/
theorem findByIdAndUpdate_idem (db : BookingDB) (id : String)
    (st : BookingStatus) :
    Booking.findByIdAndUpdate (Booking.findByIdAndUpdate db id st) id st =
      Booking.findByIdAndUpdate db id st := by
  unfold Booking.findByIdAndUpdate
  rw [List.map_map]
  apply List.map_congr_left
  intro p _
  by_cases h : p.1 = id
  · simp [Function.comp, h]
  · simp [Function.comp, h]

/-- Number of live holds on a given key. -/
def countHolds (s : HoldStore) (k : HoldKey) : Nat :=
  s.countP (fun p => p.1 = k)

/-- A key missed by the owner probe has no entry at all. -/
theorem countHolds_of_not_exists (s : HoldStore) (k : HoldKey)
    (h : holdExists s k = false) : countHolds s k = 0 := by
  induction s with
  | nil => rfl
  | cons p rest ih =>
    simp only [holdExists, holdOwner] at h ih
    by_cases hp : p.1 = k
    · rw [if_pos hp] at h
      simp at h
    · rw [if_neg hp] at h
      simp only [countHolds, List.countP_cons] at ih ⊢
      simp [hp, ih h]

/-- Sequential serialization of N tryAcquire calls on the same key, one
per owner, in the given order: the list of boolean outcomes and the final
store.  Concurrency is modelled by quantifying over the order, since each
call is a single indivisible store operation. -/
def tryAcquireAll (s : HoldStore) (k : HoldKey) : List String → List Bool × HoldStore
  | [] => ([], s)
  | o :: rest =>
    let r := tryAcquire s k o
    let rr := tryAcquireAll r.2 k rest
    (r.1 :: rr.1, rr.2)

/-- Once a hold exists, every further tryAcquire on the key fails and the
store is unchanged. -/
theorem tryAcquireAll_all_fail (k : HoldKey) (owners : List String) :
    ∀ s : HoldStore, holdExists s k = true →
      (tryAcquireAll s k owners).1.count true = 0 ∧
        (tryAcquireAll s k owners).2 = s := by
  induction owners with
  | nil => intro s _; exact ⟨rfl, rfl⟩
  | cons o rest ih =>
    intro s h
    have hta : tryAcquire s k o = (false, s) := by
      simp [tryAcquire, h]
    have hrec := ih s h
    simp only [tryAcquireAll, hta]
    refine ⟨?_, hrec.2⟩
    simp only [List.count_cons]
    simp [hrec.1]

/-- Result object returned by processBooking in server.js: success flag,
human-readable message, and holdExpiresIn on the success path. -/
structure ProcessResult where
  success : Bool
  message : String
  holdExpiresIn : Option Int
deriving DecidableEq

/-- State-change event payload published on the room-updates channel:
roomId, timeSlot, status and the requesting userId. -/
structure StateChangeEvent where
  roomId : String
  timeSlot : String
  status : BookingStatus
  userId : String
deriving DecidableEq

/-- Fault injection for the three store calls the try block of
processBooking awaits: the availability probe, the hold acquisition, and
the one reservation-status write the taken path reaches.  A some value is
the error the call rejects with; none means the call succeeds. -/
structure Faults where
  isAvailableErr : Option String
  holdRoomErr : Option String
  statusWriteErr : Option String
deriving DecidableEq

/-- The fault-free environment. -/
def Faults.none3 : Faults := { isAvailableErr := none, holdRoomErr := none, statusWriteErr := none }

deriving instance DecidableEq for Except

/-- Everything observable about one processBooking run: the returned value
or thrown error, the final record store and hold store, whether holdRoom
was called and what it returned, whether the PENDING write happened, the
ttl argument passed to holdRoom, and the published state-change events. -/
structure Trace where
  result : Except String ProcessResult
  db : BookingDB
  store : HoldStore
  acquireCalled : Bool
  acquireResult : Bool
  wrotePending : Bool
  ttlPassed : Option Int
  events : List StateChangeEvent
deriving DecidableEq

/-- The JavaScript idiom parseInt(e) || d over an already-parsed
environment value: absent or non-numeric input (none) and a parsed zero
both fall back to the default. -/
def jsOrDefault (v : Option Int) (d : Int) : Int :=
  match v with
  | none => d
  | some n => if n = 0 then d else n

/-- Modelled from the spec: the Change Publisher (shared/utils, outside
the verified sources) emits one StateChangeEvent immediately after each
reservation-status write, carrying the written status. -/
def mkEvent (msg : BookingQueueMessage) (st : BookingStatus) : StateChangeEvent :=
  { roomId := msg.roomId, timeSlot := msg.timeSlot, status := st, userId := msg.userId }

/-- Embedding of processBooking from src/backend/booking-service/server.js
(the variant that returns the result payload; server.ts runs the same
steps and discards it).  Inputs: the queue message, the parsed
BOOKING_HOLD_TTL environment value, the record store, the hold store at
the availability probe, an interference function giving the hold store at
acquisition time (other workers may run between the two awaits), and the
fault environment.  The events field is the spec-modelled Change
Publisher output; the catch block force-writes EXPIRED and rethrows the
original error. -/
def processBooking (msg : BookingQueueMessage) (envTTL : Option Int)
    (db : BookingDB) (store : HoldStore) (interfere : HoldStore → HoldStore)
    (f : Faults) : Trace :=
  match f.isAvailableErr with
  | some e =>
    { result := Except.error e
      db := Booking.findByIdAndUpdate db msg.bookingId BookingStatus.EXPIRED
      store := store
      acquireCalled := false, acquireResult := false, wrotePending := false
      ttlPassed := none
      events := [mkEvent msg BookingStatus.EXPIRED] }
  | none =>
    if RoomCache.isAvailable store msg.roomId msg.timeSlot = false then
      match f.statusWriteErr with
      | some e =>
        { result := Except.error e
          db := Booking.findByIdAndUpdate db msg.bookingId BookingStatus.EXPIRED
          store := store
          acquireCalled := false, acquireResult := false, wrotePending := false
          ttlPassed := none
          events := [mkEvent msg BookingStatus.EXPIRED] }
      | none =>
        { result := Except.ok { success := false, message := "Room is not available", holdExpiresIn := none }
          db := Booking.findByIdAndUpdate db msg.bookingId BookingStatus.EXPIRED
          store := store
          acquireCalled := false, acquireResult := false, wrotePending := false
          ttlPassed := none
          events := [mkEvent msg BookingStatus.EXPIRED] }
    else
      let holdTTL := jsOrDefault envTTL 600
      let store2 := interfere store
      match f.holdRoomErr with
      | some e =>
        { result := Except.error e
          db := Booking.findByIdAndUpdate db msg.bookingId BookingStatus.EXPIRED
          store := store2
          acquireCalled := true, acquireResult := false, wrotePending := false
          ttlPassed := some holdTTL
          events := [mkEvent msg BookingStatus.EXPIRED] }
      | none =>
        let hr := RoomCache.holdRoom store2 msg.roomId msg.timeSlot msg.userId holdTTL
        if hr.1 = false then
          match f.statusWriteErr with
          | some e =>
            { result := Except.error e
              db := Booking.findByIdAndUpdate db msg.bookingId BookingStatus.EXPIRED
              store := hr.2
              acquireCalled := true, acquireResult := false, wrotePending := false
              ttlPassed := some holdTTL
              events := [mkEvent msg BookingStatus.EXPIRED] }
          | none =>
            { result := Except.ok { success := false, message := "Room was just booked by another user", holdExpiresIn := none }
              db := Booking.findByIdAndUpdate db msg.bookingId BookingStatus.EXPIRED
              store := hr.2
              acquireCalled := true, acquireResult := false, wrotePending := false
              ttlPassed := some holdTTL
              events := [mkEvent msg BookingStatus.EXPIRED] }
        else
          match f.statusWriteErr with
          | some e =>
            { result := Except.error e
              db := Booking.findByIdAndUpdate db msg.bookingId BookingStatus.EXPIRED
              store := hr.2
              acquireCalled := true, acquireResult := true, wrotePending := false
              ttlPassed := some holdTTL
              events := [mkEvent msg BookingStatus.EXPIRED] }
          | none =>
            { result := Except.ok { success := true, message := "Room held successfully", holdExpiresIn := some holdTTL }
              db := Booking.findByIdAndUpdate db msg.bookingId BookingStatus.PENDING
              store := hr.2
              acquireCalled := true, acquireResult := true, wrotePending := true
              ttlPassed := some holdTTL
              events := [mkEvent msg BookingStatus.PENDING] }

/-- The fault, if any, that a given run actually reaches: the control flow
of processBooking determines which injected error fires first. -/
def triggeredFault (msg : BookingQueueMessage) (store : HoldStore)
    (f : Faults) : Option String :=
  match f.isAvailableErr with
  | some e => some e
  | none =>
    if RoomCache.isAvailable store msg.roomId msg.timeSlot = false then
      f.statusWriteErr
    else
      match f.holdRoomErr with
      | some e => some e
      | none => f.statusWriteErr

/-- Claim C7: updateStatus on the Reservation Record Store is idempotent —
for every reservation id, applying the same status twice (in particular
EXPIRED twice) leaves the record in that status with no error and no
observable effect beyond the first application; an absent id is likewise a
silent no-op. -/
theorem claim_C7_updateStatus_idempotent (db : BookingDB) (id : String)
    (st : BookingStatus) (h : (dbStatus db id).isSome) :
    Booking.findByIdAndUpdate (Booking.findByIdAndUpdate db id st) id st =
      Booking.findByIdAndUpdate db id st
    ∧ dbStatus (Booking.findByIdAndUpdate db id st) id = some st
    ∧ dbStatus (Booking.findByIdAndUpdate (Booking.findByIdAndUpdate db id st) id st) id = some st := by
  have hidem := findByIdAndUpdate_idem db id st
  obtain ⟨v, hv⟩ := Option.isSome_iff_exists.mp h
  have hself : dbStatus (Booking.findByIdAndUpdate db id st) id = some st := by
    rw [dbStatus_findByIdAndUpdate_self, hv]
    rfl
  refine ⟨hidem, hself, ?_⟩
  rw [hidem, hself]

/-- Witness for C7 at a concrete record store. -/
theorem claim_C7_witness :
    (dbStatus [("b1", BookingStatus.PENDING)] "b1").isSome = true
    ∧ (Booking.findByIdAndUpdate (Booking.findByIdAndUpdate [("b1", BookingStatus.PENDING)] "b1" BookingStatus.EXPIRED) "b1" BookingStatus.EXPIRED =
        Booking.findByIdAndUpdate [("b1", BookingStatus.PENDING)] "b1" BookingStatus.EXPIRED
      ∧ dbStatus (Booking.findByIdAndUpdate [("b1", BookingStatus.PENDING)] "b1" BookingStatus.EXPIRED) "b1" = some BookingStatus.EXPIRED
      ∧ dbStatus (Booking.findByIdAndUpdate (Booking.findByIdAndUpdate [("b1", BookingStatus.PENDING)] "b1" BookingStatus.EXPIRED) "b1" BookingStatus.EXPIRED) "b1" = some BookingStatus.EXPIRED) :=
  ⟨by decide, claim_C7_updateStatus_idempotent _ _ _ (by decide)⟩

/-- Claim C2: for any resourceId+slot key with no pre-existing hold,
across N concurrent tryAcquire calls with distinct owners — modelled as
the calls in an arbitrary serialization order, each call being a single
indivisible store operation — exactly one call returns true; and the
store-level create-if-absent primitive alone keeps at most one hold per
key at any instant. -/
theorem claim_C2_mutual_exclusion (s : HoldStore) (k : HoldKey)
    (owners : List String) (habs : holdExists s k = false)
    (hne : owners ≠ []) (hnd : owners.Nodup) :
    (tryAcquireAll s k owners).1.count true = 1
    ∧ (∀ (s2 : HoldStore) (o : String), countHolds s2 k ≤ 1 →
        countHolds (tryAcquire s2 k o).2 k ≤ 1) := by
  constructor
  · match owners, hne with
    | o :: rest, _ =>
      have hta : tryAcquire s k o = (true, (k, o) :: s) := by
        simp [tryAcquire, habs]
      have hheld : holdExists ((k, o) :: s) k = true := by
        simp [holdExists, holdOwner]
      have hrest := tryAcquireAll_all_fail k rest ((k, o) :: s) hheld
      simp only [tryAcquireAll, hta]
      simp only [List.count_cons]
      simp [hrest.1]
  · intro s2 o h
    by_cases he : holdExists s2 k = true
    · simp [tryAcquire, he]
      exact h
    · have he2 : holdExists s2 k = false := by
        cases hx : holdExists s2 k with
        | true => exact absurd hx he
        | false => rfl
      have h0 := countHolds_of_not_exists s2 k he2
      have hstep : (tryAcquire s2 k o).2 = (k, o) :: s2 := by
        simp [tryAcquire, he2]
      rw [hstep]
      have hcnt : countHolds ((k, o) :: s2) k = countHolds s2 k + 1 := by
        simp [countHolds, List.countP_cons]
      rw [hcnt, h0]

/-- Witness for C2: two racing owners on an empty store. -/
theorem claim_C2_witness :
    holdExists [] ("R101", "2024-01-01T10:00/11:00") = false
    ∧ (["u1", "u2"] : List String) ≠ []
    ∧ (["u1", "u2"] : List String).Nodup
    ∧ ((tryAcquireAll [] ("R101", "2024-01-01T10:00/11:00") ["u1", "u2"]).1.count true = 1
      ∧ (∀ (s2 : HoldStore) (o : String),
          countHolds s2 ("R101", "2024-01-01T10:00/11:00") ≤ 1 →
          countHolds (tryAcquire s2 ("R101", "2024-01-01T10:00/11:00") o).2 ("R101", "2024-01-01T10:00/11:00") ≤ 1)) :=
  ⟨by decide, by decide, by decide,
    claim_C2_mutual_exclusion _ _ _ (by decide) (by decide) (by decide)⟩

/-- A tryAcquire that returned true created exactly its own hold on top of
the store it saw. -/
theorem tryAcquire_true_store (s : HoldStore) (k : HoldKey) (owner : String)
    (h : (tryAcquire s k owner).1 = true) :
    (tryAcquire s k owner).2 = (k, owner) :: s := by
  by_cases he : holdExists s k = true <;> simp [tryAcquire, he] at h ⊢

/-- The freshly created hold is owned by its creator. -/
theorem holdOwner_cons_self (s : HoldStore) (k : HoldKey) (owner : String) :
    holdOwner ((k, owner) :: s) k = some owner := by
  simp [holdOwner]

/-- Claim C1: across all runs, the PENDING write happens only when the
holdRoom acquisition returned true; and in fault-free runs the status is
written PENDING exactly when the acquisition won, while a lost or
short-circuited request has its status written EXPIRED and never sees the
PENDING write. -/
theorem claim_C1_pending_iff_acquired
    (msg : BookingQueueMessage) (envTTL : Option Int) (db : BookingDB)
    (store : HoldStore) (interfere : HoldStore → HoldStore) (f : Faults) :
    ((processBooking msg envTTL db store interfere f).wrotePending = true →
      (processBooking msg envTTL db store interfere f).acquireResult = true)
    ∧ (f = Faults.none3 →
        (((processBooking msg envTTL db store interfere f).acquireResult = true →
            (processBooking msg envTTL db store interfere f).wrotePending = true ∧
            dbStatus (processBooking msg envTTL db store interfere f).db msg.bookingId =
              (dbStatus db msg.bookingId).map (fun _ => BookingStatus.PENDING))
          ∧ ((processBooking msg envTTL db store interfere f).acquireResult = false →
            (processBooking msg envTTL db store interfere f).wrotePending = false ∧
            dbStatus (processBooking msg envTTL db store interfere f).db msg.bookingId =
              (dbStatus db msg.bookingId).map (fun _ => BookingStatus.EXPIRED)))) := by
  obtain ⟨fa, fh, fw⟩ := f
  cases fa <;> cases fh <;> cases fw <;>
    simp [processBooking, Faults.none3, dbStatus_findByIdAndUpdate_self] <;>
    split_ifs <;>
    simp_all [dbStatus_findByIdAndUpdate_self]

/-- Witness for C1: a fault-free run that wins the acquisition on an empty
store writes PENDING. -/
theorem claim_C1_witness :
    (processBooking (BookingQueueMessage.mk "b1" "u1" "R101" "T10") none
        [("b1", BookingStatus.PENDING)] [] (fun s => s) Faults.none3).wrotePending = true
    ∧ dbStatus (processBooking (BookingQueueMessage.mk "b1" "u1" "R101" "T10") none
        [("b1", BookingStatus.PENDING)] [] (fun s => s) Faults.none3).db "b1" =
        some BookingStatus.PENDING := by
  have h := claim_C1_pending_iff_acquired (BookingQueueMessage.mk "b1" "u1" "R101" "T10") none
    [("b1", BookingStatus.PENDING)] [] (fun s => s) Faults.none3
  have h2 := (h.2 rfl).1 (by decide)
  refine ⟨h2.1, ?_⟩
  rw [h2.2]
  decide

/-- Claim C3: one state-change event goes out per processed request,
emitted (by the spec-modelled Change Publisher) right after the status
write: a PENDING event exactly when the acquisition won and the PENDING
write succeeded, an EXPIRED event on every other path (pre-check
short-circuit, lost race, or any store error). -/
theorem claim_C3_event_after_write
    (msg : BookingQueueMessage) (envTTL : Option Int) (db : BookingDB)
    (store : HoldStore) (interfere : HoldStore → HoldStore) (f : Faults) :
    ((processBooking msg envTTL db store interfere f).acquireResult = true ∧ f.statusWriteErr = none →
      (processBooking msg envTTL db store interfere f).events = [mkEvent msg BookingStatus.PENDING])
    ∧ (¬((processBooking msg envTTL db store interfere f).acquireResult = true ∧ f.statusWriteErr = none) →
      (processBooking msg envTTL db store interfere f).events = [mkEvent msg BookingStatus.EXPIRED]) := by
  obtain ⟨fa, fh, fw⟩ := f
  cases fa <;> cases fh <;> cases fw <;>
    simp [processBooking] <;> split_ifs <;> simp_all

/-- Witness for C3: the winning run emits the PENDING event. -/
theorem claim_C3_witness :
    (processBooking (BookingQueueMessage.mk "b1" "u1" "R101" "T10") none
        [("b1", BookingStatus.PENDING)] [] (fun s => s) Faults.none3).events =
      [mkEvent (BookingQueueMessage.mk "b1" "u1" "R101" "T10") BookingStatus.PENDING] :=
  (claim_C3_event_after_write (BookingQueueMessage.mk "b1" "u1" "R101" "T10") none
      [("b1", BookingStatus.PENDING)] [] (fun s => s) Faults.none3).1 ⟨by decide, rfl⟩

/-- Claim C4: a run throws exactly when the fault its control flow reaches
is set, the thrown error is that original error (never replaced or
swallowed, and no normal return on that path), and before rethrowing the
catch block force-writes the reservation status to EXPIRED. -/
theorem claim_C4_error_forces_expired
    (msg : BookingQueueMessage) (envTTL : Option Int) (db : BookingDB)
    (store : HoldStore) (interfere : HoldStore → HoldStore) (f : Faults)
    (e : String) (hdb : (dbStatus db msg.bookingId).isSome) :
    ((processBooking msg envTTL db store interfere f).result = Except.error e ↔
      triggeredFault msg store f = some e)
    ∧ ((processBooking msg envTTL db store interfere f).result = Except.error e →
        dbStatus (processBooking msg envTTL db store interfere f).db msg.bookingId =
          some BookingStatus.EXPIRED) := by
  obtain ⟨v, hv⟩ := Option.isSome_iff_exists.mp hdb
  obtain ⟨fa, fh, fw⟩ := f
  cases fa <;> cases fh <;> cases fw <;>
    simp [processBooking, triggeredFault, dbStatus_findByIdAndUpdate_self, hv] <;>
    split_ifs <;> simp_all [dbStatus_findByIdAndUpdate_self, hv]

/-- Witness for C4: a failing availability probe makes the run rethrow
that error with the status forced to EXPIRED. -/
theorem claim_C4_witness :
    (dbStatus [("b1", BookingStatus.PENDING)] "b1").isSome = true
    ∧ (((processBooking (BookingQueueMessage.mk "b1" "u1" "R101" "T10") none
          [("b1", BookingStatus.PENDING)] [] (fun s => s)
          (Faults.mk (some "redis down") none none)).result = Except.error "redis down" ↔
        triggeredFault (BookingQueueMessage.mk "b1" "u1" "R101" "T10") []
          (Faults.mk (some "redis down") none none) = some "redis down")
      ∧ ((processBooking (BookingQueueMessage.mk "b1" "u1" "R101" "T10") none
          [("b1", BookingStatus.PENDING)] [] (fun s => s)
          (Faults.mk (some "redis down") none none)).result = Except.error "redis down" →
        dbStatus (processBooking (BookingQueueMessage.mk "b1" "u1" "R101" "T10") none
          [("b1", BookingStatus.PENDING)] [] (fun s => s)
          (Faults.mk (some "redis down") none none)).db "b1" = some BookingStatus.EXPIRED)) :=
  ⟨by decide,
    claim_C4_error_forces_expired (BookingQueueMessage.mk "b1" "u1" "R101" "T10") none
      [("b1", BookingStatus.PENDING)] [] (fun s => s)
      (Faults.mk (some "redis down") none none) "redis down" (by decide)⟩

/-- Claim C5: in a fault-free run, a winning request returns success with
holdExpiresIn equal to the ttl passed to holdRoom, that ttl being the
parsed BOOKING_HOLD_TTL with 600 as the default when the setting is
absent; a losing request returns failure with one of the two rejection
messages and no expiry. -/
theorem claim_C5_result_payload
    (msg : BookingQueueMessage) (envTTL : Option Int) (db : BookingDB)
    (store : HoldStore) (interfere : HoldStore → HoldStore) (f : Faults)
    (hf : f = Faults.none3) :
    (∀ r : ProcessResult, (processBooking msg envTTL db store interfere f).result = Except.ok r →
        (r.success = true →
          r.holdExpiresIn = (processBooking msg envTTL db store interfere f).ttlPassed
          ∧ (processBooking msg envTTL db store interfere f).ttlPassed = some (jsOrDefault envTTL 600))
        ∧ (r.success = false →
          (r.message = "Room is not available" ∨ r.message = "Room was just booked by another user")
          ∧ r.holdExpiresIn = none))
    ∧ jsOrDefault none 600 = 600 := by
  subst hf
  refine ⟨?_, rfl⟩
  intro r hr
  simp only [processBooking, Faults.none3] at hr ⊢
  split_ifs at hr ⊢ <;> simp only [Except.ok.injEq] at hr <;> subst hr <;> simp

/-- Witness for C5 with the hold TTL setting absent. -/
theorem claim_C5_witness :
    (∀ r : ProcessResult,
        (processBooking (BookingQueueMessage.mk "b1" "u1" "R101" "T10") none
          [("b1", BookingStatus.PENDING)] [] (fun s => s) Faults.none3).result = Except.ok r →
        (r.success = true →
          r.holdExpiresIn = (processBooking (BookingQueueMessage.mk "b1" "u1" "R101" "T10") none
            [("b1", BookingStatus.PENDING)] [] (fun s => s) Faults.none3).ttlPassed
          ∧ (processBooking (BookingQueueMessage.mk "b1" "u1" "R101" "T10") none
            [("b1", BookingStatus.PENDING)] [] (fun s => s) Faults.none3).ttlPassed =
              some (jsOrDefault none 600))
        ∧ (r.success = false →
          (r.message = "Room is not available" ∨ r.message = "Room was just booked by another user")
          ∧ r.holdExpiresIn = none))
    ∧ jsOrDefault none 600 = 600 :=
  claim_C5_result_payload (BookingQueueMessage.mk "b1" "u1" "R101" "T10") none
    [("b1", BookingStatus.PENDING)] [] (fun s => s) Faults.none3 rfl

/-- Claim C8: a run that errors after winning the acquisition leaves the
hold store exactly as the acquisition produced it — the hold is still
there, owned by the requester, with no explicit delete — and touches no
reservation record other than the status of its own bookingId. -/
theorem claim_C8_error_keeps_hold
    (msg : BookingQueueMessage) (envTTL : Option Int) (db : BookingDB)
    (store : HoldStore) (interfere : HoldStore → HoldStore) (f : Faults)
    (e : String)
    (ha : (processBooking msg envTTL db store interfere f).acquireResult = true)
    (he : (processBooking msg envTTL db store interfere f).result = Except.error e) :
    (processBooking msg envTTL db store interfere f).store =
      (RoomCache.holdRoom (interfere store) msg.roomId msg.timeSlot msg.userId (jsOrDefault envTTL 600)).2
    ∧ holdOwner (processBooking msg envTTL db store interfere f).store (msg.roomId, msg.timeSlot) =
        some msg.userId
    ∧ (∀ id2, id2 ≠ msg.bookingId →
        dbStatus (processBooking msg envTTL db store interfere f).db id2 = dbStatus db id2) := by
  have howner : ∀ (s2 : HoldStore),
      (tryAcquire s2 (msg.roomId, msg.timeSlot) msg.userId).1 = true →
      holdOwner (tryAcquire s2 (msg.roomId, msg.timeSlot) msg.userId).2 (msg.roomId, msg.timeSlot) =
        some msg.userId := by
    intro s2 h2
    rw [tryAcquire_true_store s2 (msg.roomId, msg.timeSlot) msg.userId h2]
    exact holdOwner_cons_self s2 (msg.roomId, msg.timeSlot) msg.userId
  obtain ⟨fa, fh, fw⟩ := f
  cases fa <;> cases fh <;> cases fw <;>
    simp [processBooking] at ha he ⊢ <;>
    split_ifs at ha he ⊢ <;>
    simp_all [RoomCache.holdRoom] <;>
    exact fun id2 h2 => dbStatus_findByIdAndUpdate_other db msg.bookingId id2 BookingStatus.EXPIRED h2

/-- Witness for C8: the PENDING write fails right after a winning
acquisition; the hold survives. -/
theorem claim_C8_witness :
    (processBooking (BookingQueueMessage.mk "b1" "u1" "R101" "T10") none
        [("b1", BookingStatus.PENDING), ("b2", BookingStatus.CONFIRMED)] [] (fun s => s)
        (Faults.mk none none (some "mongo write failed"))).acquireResult = true
    ∧ (processBooking (BookingQueueMessage.mk "b1" "u1" "R101" "T10") none
        [("b1", BookingStatus.PENDING), ("b2", BookingStatus.CONFIRMED)] [] (fun s => s)
        (Faults.mk none none (some "mongo write failed"))).result = Except.error "mongo write failed"
    ∧ ((processBooking (BookingQueueMessage.mk "b1" "u1" "R101" "T10") none
        [("b1", BookingStatus.PENDING), ("b2", BookingStatus.CONFIRMED)] [] (fun s => s)
        (Faults.mk none none (some "mongo write failed"))).store =
      (RoomCache.holdRoom ((fun s => s) ([] : HoldStore)) "R101" "T10" "u1" (jsOrDefault none 600)).2
      ∧ holdOwner (processBooking (BookingQueueMessage.mk "b1" "u1" "R101" "T10") none
          [("b1", BookingStatus.PENDING), ("b2", BookingStatus.CONFIRMED)] [] (fun s => s)
          (Faults.mk none none (some "mongo write failed"))).store ("R101", "T10") = some "u1"
      ∧ (∀ id2, id2 ≠ "b1" →
          dbStatus (processBooking (BookingQueueMessage.mk "b1" "u1" "R101" "T10") none
            [("b1", BookingStatus.PENDING), ("b2", BookingStatus.CONFIRMED)] [] (fun s => s)
            (Faults.mk none none (some "mongo write failed"))).db id2 =
          dbStatus [("b1", BookingStatus.PENDING), ("b2", BookingStatus.CONFIRMED)] id2)) :=
  ⟨by decide, by decide,
    claim_C8_error_keeps_hold (BookingQueueMessage.mk "b1" "u1" "R101" "T10") none
      [("b1", BookingStatus.PENDING), ("b2", BookingStatus.CONFIRMED)] [] (fun s => s)
      (Faults.mk none none (some "mongo write failed")) "mongo write failed"
      (by decide) (by decide)⟩

/-- A live socket connection in the notification service: the socket id
and the set of socket.io rooms the connection has joined. -/
structure SocketConn where
  sid : String
  joined : List String
deriving DecidableEq

/-- socket.join: socket.io room membership is a set — joining an already
joined room changes nothing. -/
def socketJoin (c : SocketConn) (room : String) : SocketConn :=
  if room ∈ c.joined then c else { c with joined := room :: c.joined }

/-- socket.leave: removes the room from the membership set. -/
def socketLeave (c : SocketConn) (room : String) : SocketConn :=
  { c with joined := c.joined.filter (fun r => r ≠ room) }

/-- The subscribe room handler: joins the room named by the roomId with
the room prefix. -/
def subscribeRoomHandler (c : SocketConn) (roomId : String) : SocketConn :=
  socketJoin c ("room:" ++ roomId)

/-- The unsubscribe room handler: leaves that room. -/
def unsubscribeRoomHandler (c : SocketConn) (roomId : String) : SocketConn :=
  socketLeave c ("room:" ++ roomId)

/-- Parsed payload of a message on the room-updates channel, as consumed
by the notification service (shared/types RoomUpdateEvent). -/
structure RoomUpdateEvent where
  roomId : String
  timeSlot : String
  status : String
  userId : String
deriving DecidableEq

/-- The object literal emitted as the resource-scoped room status message:
roomId, timeSlot, status, userId, timestamp. -/
def roomStatusPayload (e : RoomUpdateEvent) (now : String) : List (String × String) :=
  [("roomId", e.roomId), ("timeSlot", e.timeSlot), ("status", e.status),
    ("userId", e.userId), ("timestamp", now)]

/-- The object literal emitted as the unscoped room update message:
roomId, timeSlot, status, timestamp — no userId field. -/
def roomUpdatePayload (e : RoomUpdateEvent) (now : String) : List (String × String) :=
  [("roomId", e.roomId), ("timeSlot", e.timeSlot), ("status", e.status), ("timestamp", now)]

/-- One socket.emit delivery: target socket id, event name, payload. -/
structure Emission where
  sid : String
  event : String
  payload : List (String × String)
deriving DecidableEq

/-- Embedding of the Redis message handler of the notification service:
io.to the prefixed room emits the scoped room status message to every
connection that joined that room, then io.emit delivers the unscoped room
update message to every connected client. -/
def handleRedisMessage (conns : List SocketConn) (e : RoomUpdateEvent)
    (now : String) : List Emission :=
  (conns.filter (fun c => ("room:" ++ e.roomId) ∈ c.joined)).map
      (fun c => Emission.mk c.sid "room:status" (roomStatusPayload e now))
    ++ conns.map (fun c => Emission.mk c.sid "room:update" (roomUpdatePayload e now))

/-- The room prefix makes distinct roomIds name distinct rooms. -/
theorem roomChanInj (a b : String) (h : "room:" ++ a = "room:" ++ b) : a = b := by
  have hd := congrArg String.data h
  rw [String.data_append, String.data_append] at hd
  have h2 := List.append_cancel_left hd
  exact String.ext h2

/-- Claim C6: a connection subscribed only to resource A receives no
resource-scoped room status message for a different resource B, while
every connected connection — subscribed or not — receives the unscoped
room update message for B. -/
theorem claim_C6_fanout_scoping (conns : List SocketConn) (c : SocketConn)
    (A B : String) (e : RoomUpdateEvent) (now : String)
    (hnd : (conns.map SocketConn.sid).Nodup)
    (hc : c ∈ conns) (hsub : c.joined = ["room:" ++ A])
    (hAB : A ≠ B) (hB : e.roomId = B) :
    (∀ em ∈ handleRedisMessage conns e now, em.sid = c.sid → em.event ≠ "room:status")
    ∧ (∀ c2 ∈ conns,
        Emission.mk c2.sid "room:update" (roomUpdatePayload e now) ∈ handleRedisMessage conns e now) := by
  constructor
  · intro em hem hsid hev
    simp only [handleRedisMessage] at hem
    rw [List.mem_append] at hem
    rcases hem with hs | hu
    · rw [List.mem_map] at hs
      obtain ⟨c2, hc2mem, hc2eq⟩ := hs
      rw [List.mem_filter] at hc2mem
      have hc2sid : c2.sid = em.sid := by rw [← hc2eq]
      have hceq : c2 = c :=
        List.inj_on_of_nodup_map hnd hc2mem.1 hc (hc2sid.trans hsid)
      have hjoin : ("room:" ++ e.roomId) ∈ c.joined :=
        hceq ▸ (of_decide_eq_true hc2mem.2)
      rw [hsub, hB] at hjoin
      simp only [List.mem_singleton] at hjoin
      exact hAB (roomChanInj A B hjoin.symm)
    · rw [List.mem_map] at hu
      obtain ⟨c2, _, hc2eq⟩ := hu
      rw [← hc2eq] at hev
      simp at hev
  · intro c2 hc2
    simp only [handleRedisMessage]
    rw [List.mem_append]
    right
    rw [List.mem_map]
    exact ⟨c2, hc2, rfl⟩

/-- Witness for C6: two connections, one watching room A, one watching
room B, with an event on room B. -/
theorem claim_C6_witness :
    ((([SocketConn.mk "s1" ["room:A"], SocketConn.mk "s2" ["room:B"]] : List SocketConn).map SocketConn.sid).Nodup
    ∧ SocketConn.mk "s1" ["room:A"] ∈ ([SocketConn.mk "s1" ["room:A"], SocketConn.mk "s2" ["room:B"]] : List SocketConn)
    ∧ (SocketConn.mk "s1" ["room:A"]).joined = ["room:" ++ "A"]
    ∧ ("A" : String) ≠ "B"
    ∧ (RoomUpdateEvent.mk "B" "T1" "PENDING" "u9").roomId = "B")
    ∧ ((∀ em ∈ handleRedisMessage [SocketConn.mk "s1" ["room:A"], SocketConn.mk "s2" ["room:B"]]
          (RoomUpdateEvent.mk "B" "T1" "PENDING" "u9") "now",
        em.sid = (SocketConn.mk "s1" ["room:A"]).sid → em.event ≠ "room:status")
      ∧ (∀ c2 ∈ ([SocketConn.mk "s1" ["room:A"], SocketConn.mk "s2" ["room:B"]] : List SocketConn),
          Emission.mk c2.sid "room:update"
            (roomUpdatePayload (RoomUpdateEvent.mk "B" "T1" "PENDING" "u9") "now") ∈
          handleRedisMessage [SocketConn.mk "s1" ["room:A"], SocketConn.mk "s2" ["room:B"]]
            (RoomUpdateEvent.mk "B" "T1" "PENDING" "u9") "now")) :=
  ⟨⟨by decide, by decide, by decide, by decide, rfl⟩,
    claim_C6_fanout_scoping [SocketConn.mk "s1" ["room:A"], SocketConn.mk "s2" ["room:B"]]
      (SocketConn.mk "s1" ["room:A"]) "A" "B" (RoomUpdateEvent.mk "B" "T1" "PENDING" "u9") "now"
      (by decide) (by decide) (by decide) (by decide) rfl⟩

/-- Claim C10: the unscoped room update message carries exactly the
roomId, timeSlot, status and timestamp fields and never a userId field;
any delivered payload containing a userId field is the scoped room status
message, delivered only to connections subscribed to the room of the
event. -/
theorem claim_C10_userid_scoped_only (conns : List SocketConn)
    (e : RoomUpdateEvent) (now : String) :
    ∀ em ∈ handleRedisMessage conns e now,
      (em.event = "room:update" →
        em.payload.map Prod.fst = ["roomId", "timeSlot", "status", "timestamp"]
        ∧ ∀ kv ∈ em.payload, kv.1 ≠ "userId")
      ∧ ((∃ v, ("userId", v) ∈ em.payload) →
        em.event = "room:status"
        ∧ ∃ c2 ∈ conns, c2.sid = em.sid ∧ ("room:" ++ e.roomId) ∈ c2.joined) := by
  intro em hem
  simp only [handleRedisMessage] at hem
  rw [List.mem_append] at hem
  rcases hem with hs | hu
  · rw [List.mem_map] at hs
    obtain ⟨c2, hc2mem, hc2eq⟩ := hs
    rw [List.mem_filter] at hc2mem
    subst hc2eq
    constructor
    · intro hev
      simp at hev
    · intro _
      exact ⟨rfl, c2, hc2mem.1, rfl, of_decide_eq_true hc2mem.2⟩
  · rw [List.mem_map] at hu
    obtain ⟨c2, hc2mem, hc2eq⟩ := hu
    subst hc2eq
    constructor
    · intro _
      constructor
      · rfl
      · intro kv hkv
        simp only [roomUpdatePayload, List.mem_cons] at hkv
        rcases hkv with h | h | h | h | h
        · simp [h]
        · simp [h]
        · simp [h]
        · simp [h]
        · simp at h
    · intro hv
      obtain ⟨v, hv⟩ := hv
      simp [roomUpdatePayload] at hv

/-- Witness for C10 at the unscoped delivery of a concrete broadcast. -/
theorem claim_C10_witness :
    (Emission.mk "s1" "room:update"
        (roomUpdatePayload (RoomUpdateEvent.mk "A" "T1" "PENDING" "u9") "now") ∈
      handleRedisMessage [SocketConn.mk "s1" ["room:A"]]
        (RoomUpdateEvent.mk "A" "T1" "PENDING" "u9") "now")
    ∧ (((Emission.mk "s1" "room:update"
          (roomUpdatePayload (RoomUpdateEvent.mk "A" "T1" "PENDING" "u9") "now")).event = "room:update" →
        (Emission.mk "s1" "room:update"
          (roomUpdatePayload (RoomUpdateEvent.mk "A" "T1" "PENDING" "u9") "now")).payload.map Prod.fst =
            ["roomId", "timeSlot", "status", "timestamp"]
        ∧ ∀ kv ∈ (Emission.mk "s1" "room:update"
            (roomUpdatePayload (RoomUpdateEvent.mk "A" "T1" "PENDING" "u9") "now")).payload,
            kv.1 ≠ "userId")
      ∧ ((∃ v, ("userId", v) ∈ (Emission.mk "s1" "room:update"
            (roomUpdatePayload (RoomUpdateEvent.mk "A" "T1" "PENDING" "u9") "now")).payload) →
        (Emission.mk "s1" "room:update"
          (roomUpdatePayload (RoomUpdateEvent.mk "A" "T1" "PENDING" "u9") "now")).event = "room:status"
        ∧ ∃ c2 ∈ ([SocketConn.mk "s1" ["room:A"]] : List SocketConn),
            c2.sid = (Emission.mk "s1" "room:update"
              (roomUpdatePayload (RoomUpdateEvent.mk "A" "T1" "PENDING" "u9") "now")).sid
            ∧ ("room:" ++ (RoomUpdateEvent.mk "A" "T1" "PENDING" "u9").roomId) ∈ c2.joined)) :=
  ⟨by decide,
    claim_C10_userid_scoped_only [SocketConn.mk "s1" ["room:A"]]
      (RoomUpdateEvent.mk "A" "T1" "PENDING" "u9") "now"
      (Emission.mk "s1" "room:update"
        (roomUpdatePayload (RoomUpdateEvent.mk "A" "T1" "PENDING" "u9") "now"))
      (by decide)⟩

/-- Backing store of the client SocketService stored-callback map: event
name mapped to the list of registered callbacks, callbacks identified by
number.  Adding appends to the entry for the event, creating it when
absent — mirroring the Map of arrays in SocketService. -/
def addCallback (m : List (String × List Nat)) (event : String) (cb : Nat) :
    List (String × List Nat) :=
  if m.any (fun p => p.1 = event) then
    m.map (fun p => if p.1 = event then (p.1, p.2 ++ [cb]) else p)
  else m ++ [(event, [cb])]

/-- State of the client SocketService: whether a socket object exists, the
handlers attached on the socket (an append-only list, as socket.on
appends), and the stored callback map used for re-registration. -/
structure SocketService where
  hasSocket : Bool
  socketHandlers : List (String × Nat)
  eventCallbacks : List (String × List Nat)
deriving DecidableEq

/-- The exported singleton before connect: no socket, nothing stored. -/
def SocketService.initial : SocketService :=
  { hasSocket := false, socketHandlers := [], eventCallbacks := [] }

/-- connect: a no-op when the socket is already connected, otherwise a
fresh socket object (fresh handler list) keeping the stored callbacks. -/
def SocketService.connect (s : SocketService) : SocketService :=
  if s.hasSocket then s
  else { hasSocket := true, socketHandlers := [], eventCallbacks := s.eventCallbacks }

/-- All stored event-callback pairs, in map order. -/
def storedPairs (m : List (String × List Nat)) : List (String × Nat) :=
  (m.map (fun p => p.2.map (fun cb => (p.1, cb)))).join

/-- One firing of the connect event: the re-registration handler walks the
stored callback map and calls socket.on for every stored callback,
appending them all to the handler list. -/
def SocketService.fireConnect (s : SocketService) : SocketService :=
  { s with socketHandlers := s.socketHandlers ++ storedPairs s.eventCallbacks }

/-- The on method: without a socket it only warns; with one it stores the
callback for re-registration and attaches it with socket.on. -/
def SocketService.on (s : SocketService) (event : String) (cb : Nat) : SocketService :=
  if s.hasSocket then
    { s with
      eventCallbacks := addCallback s.eventCallbacks event cb
      socketHandlers := s.socketHandlers ++ [(event, cb)] }
  else s

/-- The disconnect method: with a socket it disconnects, nulls the socket
and clears the stored callback map; without one it does nothing. -/
def SocketService.disconnect (s : SocketService) : SocketService :=
  if s.hasSocket then
    { hasSocket := false, socketHandlers := [], eventCallbacks := [] }
  else s

/-- Each firing of the connect event adds one more attachment of a
callback stored exactly once. -/
theorem fireConnect_iterate_count (event : String) (cb : Nat) (k : Nat) :
    ∀ s : SocketService, s.eventCallbacks = [(event, [cb])] →
      ((SocketService.fireConnect)^[k] s).socketHandlers.count (event, cb) =
        s.socketHandlers.count (event, cb) + k := by
  induction k with
  | zero => intro s _; simp
  | succ n ih =>
    intro s h
    rw [Function.iterate_succ_apply]
    have hfc : (SocketService.fireConnect s).eventCallbacks = [(event, [cb])] := by
      simp [SocketService.fireConnect, h]
    rw [ih _ hfc]
    simp [SocketService.fireConnect, h, storedPairs, List.count_append]
    omega

/-- Claim C9: a callback registered once with on after connect is attached
k + 1 times after k firings of the connect event — the handler list grows
append-only, with no set semantics — while disconnect clears the whole
stored callback map. -/
theorem claim_C9_reconnect_reregisters (event : String) (cb : Nat) (k : Nat) :
    ((SocketService.fireConnect)^[k]
        ((SocketService.initial.connect).on event cb)).socketHandlers.count (event, cb) = k + 1
    ∧ (((SocketService.initial.connect).on event cb).disconnect).eventCallbacks = [] := by
  have hstate : (SocketService.initial.connect).on event cb =
      { hasSocket := true, socketHandlers := [(event, cb)],
        eventCallbacks := [(event, [cb])] } := by
    simp [SocketService.initial, SocketService.connect, SocketService.on, addCallback]
  constructor
  · rw [hstate]
    rw [fireConnect_iterate_count event cb k _ rfl]
    simp
    omega
  · rw [hstate]
    rfl
